import Mathlib

/-!
Verification development for the AminoVerse client
(src/aminoverse/src/components/AminoVerseUI.js).

The claims under study concern the client-side response normalizer
handleInteractionsResponse, the structure pane ProteinStructureVisualizer,
the chat orchestrator handleSearch, the form handler handleSubmit, and the
visualization tab host.  The JavaScript is shallowly embedded: JSON payloads
become the inductive type JValue; JavaScript truthiness, property access,
the logical-or defaulting idiom, strict string equality and length tests
become small total functions; the library primitives JSON.parse, parseFloat
and Math.random are taken as explicit function parameters (the code only
observes their results); places where the source can raise a TypeError
(property access on null/undefined, calling .split or .toUpperCase on a
non-string) are modelled in the Except monad so that the source's try/catch
structure is reproduced exactly.
-/

/-- JSON-ish runtime values flowing through the client.  A single `null`
constructor stands for both JavaScript null and undefined: the two are
interchangeable for every operation the studied code performs on them
(truthiness, property access throwing, Boolean coercion, parseFloat
yielding NaN). -/
inductive JValue where
  | null
  | bool (b : Bool)
  | num (q : Rat)
  | str (s : String)
  | arr (elems : List JValue)
  | obj (fields : List (String × JValue))

/-- JavaScript truthiness of a value.  (NaN cannot arise: every number in
the model comes from JSON, so it is finite.) -/
def truthy : JValue → Bool
  | .null => false
  | .bool b => b
  | .num q => decide (q ≠ 0)
  | .str s => decide (s ≠ "")
  | .arr _ => true
  | .obj _ => true

/-- First binding of a key in an object's field list.  Objects produced by
JSON.parse have distinct keys, so first-wins agrees with the source. -/
def objGet : List (String × JValue) → String → JValue
  | [], _ => .null
  | (k, v) :: rest, key => if k = key then v else objGet rest key

/-- Property access `v.key` on a value already known to be non-null.
Missing properties, and properties of primitives, read as undefined
(modelled `.null`).  Access on null/undefined throws in JavaScript; every
use site below either sits behind a truthiness guard, as in the source, or
models the throw explicitly in Except. -/
def getF : JValue → String → JValue
  | .obj fs, key => objGet fs key
  | _, _ => .null

/-- The JavaScript defaulting idiom `a || b`. -/
def jsOr (a b : JValue) : JValue := if truthy a then a else b

/-- Strict equality `v === "s"` against a string literal. -/
def jsEqStr (v : JValue) (s : String) : Bool :=
  match v with
  | .str t => decide (t = s)
  | _ => false

/-- Array.isArray. -/
def isArray : JValue → Bool
  | .arr _ => true
  | _ => false

/-- Recognizer for string values. -/
def isStr : JValue → Bool
  | .str _ => true
  | _ => false

/-- Length of an array value; 0 for everything else (used only on values
already known to be arrays). -/
def arrLen : JValue → Nat
  | .arr xs => xs.length
  | _ => 0

/-- Elements of an array value. -/
def arrElems : JValue → List JValue
  | .arr xs => xs
  | _ => []

/-- The test `v.length > 0`: meaningful for arrays and strings, false for
values whose `.length` reads as undefined. -/
def jsLengthGTZero : JValue → Bool
  | .arr xs => decide (xs.length > 0)
  | .str s => decide (s.length > 0)
  | _ => false

mutual
/-- String coercion used by template literals.  Number formatting
approximates the JavaScript one (the claims never interpolate numbers). -/
def jsStringOf : JValue → String
  | .null => "null"
  | .bool true => "true"
  | .bool false => "false"
  | .num q => toString q
  | .str s => s
  | .arr xs => jsStringOfElems xs
  | .obj _ => "[object Object]"

/-- Array-to-string coercion: elements joined with commas, null and
undefined elements rendering as the empty string. -/
def jsStringOfElems : List JValue → String
  | [] => ""
  | [.null] => ""
  | [x] => jsStringOf x
  | .null :: y :: rest => "," ++ jsStringOfElems (y :: rest)
  | x :: y :: rest => jsStringOf x ++ "," ++ jsStringOfElems (y :: rest)
end

/-- Characters removed by String.prototype.trim (the white-space characters
relevant to the claims; JavaScript also trims a few rarer Unicode spaces). -/
def jsWhitespace (c : Char) : Bool :=
  c == ' ' || c == '\t' || c == '\n' || c == '\r' || c == '\x0b' || c == '\x0c' || c == ' '

/-- String.prototype.trim: drop white space from both ends. -/
def jsTrim (s : String) : String :=
  ⟨((s.data.dropWhile jsWhitespace).reverse.dropWhile jsWhitespace).reverse⟩

/-- Helper for String.prototype.includes: does the pattern occur as a
contiguous run of the character list? -/
def hasSubList (pat : List Char) : List Char → Bool
  | [] => pat.isEmpty
  | c :: rest => pat.isPrefixOf (c :: rest) || hasSubList pat rest

/-- String.prototype.includes. -/
def strIncludes (s pat : String) : Bool := hasSubList pat.data s.data

/-- Characters up to (excluding) the first occurrence of a separator:
the `[0]` component of a JavaScript String.prototype.split. -/
def takeUntilChar (stop : Char) : List Char → List Char
  | [] => []
  | c :: rest => if c = stop then [] else c :: takeUntilChar stop rest

/-- The id-cleaning expression `s.split('-')[0].split('.')[0]` from
ProteinStructureVisualizer. -/
def cleanId (s : String) : String :=
  ⟨takeUntilChar '.' (takeUntilChar '-' s.data)⟩

/-- String.prototype.toUpperCase, restricted to the character range the
studied code feeds it (protein accessions are ASCII). -/
def jsToUpper (s : String) : String := ⟨s.data.map Char.toUpper⟩

/-- String.prototype.toLowerCase, same ASCII scope. -/
def jsToLower (s : String) : String := ⟨s.data.map Char.toLower⟩

/-- Calling `.split('-')[0].split('.')[0]` on an arbitrary value: only
strings have a split method; on anything else the call raises a TypeError,
modelled as the Except error. -/
def splitCleanId : JValue → Except Unit String
  | .str s => .ok (cleanId s)
  | _ => .error ()

/-!
The interactions normalizer handleInteractionsResponse
(AminoVerseUI.js lines 2488-2658).
-/

/-- A validated interaction record, the shape built by the final `.map`
of handleInteractionsResponse (lines 2602-2612).  protein_id, protein_name
and evidence keep whatever runtime value the `||` chains produced, which
is why they are JValue and not String. -/
structure Interaction where
  protein_id : JValue
  protein_name : JValue
  score : Rat
  evidence : JValue
  is_generated : Bool

/-- The reduce callback of the largest-array heuristic (lines 2526-2527):
keep the longer of two arrays, the earlier one on ties. -/
def pickLargerArray (prev current : JValue) : JValue :=
  if arrLen current > arrLen prev then current else prev

/-- The largest-array-field heuristic (lines 2522-2527): collect the
array-valued fields and reduce them with the larger-of-two callback,
seeded with the empty array. -/
def largestArrayField (fs : List (String × JValue)) : JValue :=
  ((fs.map Prod.snd).filter isArray).foldl pickLargerArray (.arr [])

/-- Shape sniffing of the fetched interactions payload
(lines 2498-2534): an object with an `interactions` array uses it; a bare
array is used directly; a string is run through JSON.parse (supplied as
the parameter `parse`; a parse failure is caught and leaves the list
empty) and the same two shapes are tried on the parse result; any other
object falls back to its largest array-valued field (an empty winner
leaves the list empty, which coincides with never assigning it);
everything else leaves the list empty. -/
def extractInteractions (parse : String → Option JValue) : JValue → List JValue
  | .obj fs =>
    (match objGet fs "interactions" with
     | .arr xs => xs
     | _ =>
       match largestArrayField fs with
       | .arr xs => xs
       | _ => [])
  | .arr xs => xs
  | .str s =>
    (match parse s with
     | some parsedData =>
       (match parsedData with
        | .obj gs =>
          (match objGet gs "interactions" with
           | .arr xs => xs
           | _ => [])
        | .arr xs => xs
        | _ => [])
     | none => [])
  | _ => []

/-- The hard-coded TP53 fallback records (lines 2543-2572), as the raw
object literals that still pass through the validation map. -/
def tp53FallbackRaw : List JValue :=
  [ .obj [("protein_id", .str "Q00987"),
          ("protein_name", .str "MDM2 (E3 ubiquitin-protein ligase)"),
          ("score", .num 0.999),
          ("evidence", .str "experimental, text mining, database"),
          ("is_generated", .bool false)],
    .obj [("protein_id", .str "Q13625"),
          ("protein_name", .str "ASPP2 (TP53BP2)"),
          ("score", .num 0.924),
          ("evidence", .str "experimental, text mining"),
          ("is_generated", .bool false)],
    .obj [("protein_id", .str "Q00653"),
          ("protein_name", .str "NFKB2 (Nuclear factor NF-kappa-B)"),
          ("score", .num 0.876),
          ("evidence", .str "experimental, text mining"),
          ("is_generated", .bool false)],
    .obj [("protein_id", .str "P38936"),
          ("protein_name", .str "CDKN1A (p21)"),
          ("score", .num 0.912),
          ("evidence", .str "experimental, text mining"),
          ("is_generated", .bool false)] ]

/-- The generic three-record fallback (lines 2574-2597). -/
def genericFallbackRaw : List JValue :=
  [ .obj [("protein_id", .str "INTERACT_1"),
          ("protein_name", .str "Interacting Protein 1"),
          ("score", .num 0.85),
          ("evidence", .str "computational prediction"),
          ("is_generated", .bool true)],
    .obj [("protein_id", .str "INTERACT_2"),
          ("protein_name", .str "Interacting Protein 2"),
          ("score", .num 0.75),
          ("evidence", .str "text mining"),
          ("is_generated", .bool true)],
    .obj [("protein_id", .str "INTERACT_3"),
          ("protein_name", .str "Interacting Protein 3"),
          ("score", .num 0.65),
          ("evidence", .str "experimental"),
          ("is_generated", .bool true)] ]

/-- The fallback records set by the catch block of
handleInteractionsResponse (lines 2631-2653); these are assigned to the
state directly, without the validation map. -/
def interactionsCatchData : List Interaction :=
  [ ⟨.str "P01106", .str "MYC (Proto-oncogene c-Myc)", 0.8,
     .str "text mining, database", true⟩,
    ⟨.str "P38398", .str "BRCA1 (Breast Cancer Type 1)", 0.7,
     .str "text mining", true⟩,
    ⟨.str "P49841", .str "GSK3B (Glycogen synthase kinase-3 beta)", 0.75,
     .str "database", true⟩ ]

/-- The fallback-selection test
`proteinId === "P04637" || proteinId.toUpperCase() === "TP53"`
(line 2541).  Strict equality never throws; toUpperCase is only called
when the first disjunct is false and raises a TypeError on a non-string
protein id, which the surrounding try/catch then handles. -/
def isTP53 (proteinId : JValue) : Except Unit Bool :=
  if jsEqStr proteinId "P04637" then .ok true
  else
    match proteinId with
    | .str s => .ok (decide (jsToUpper s = "TP53"))
    | _ => .error ()

/-- Validation of one raw interaction record (lines 2604-2611).
Property access on a null/undefined element throws, which the outer catch
of handleInteractionsResponse absorbs.  The parameters model library
primitives: `pf` is parseFloat on an arbitrary value, returning none for
NaN, and `randSuffix` is the already-drawn
Math.random().toString(36).substring(7) suffix.  Note `parseFloat(x) || 0.5`
also replaces a parsed 0 by the 0.5 default, exactly as `||` does. -/
def validateOne (pf : JValue → Option Rat) (randSuffix : String)
    (interaction : JValue) : Except Unit Interaction :=
  match interaction with
  | .null => .error ()
  | _ =>
    .ok
      { protein_id := jsOr (getF interaction "protein_id")
          (jsOr (getF interaction "id") (.str ("unknown-" ++ randSuffix))),
        protein_name := jsOr (getF interaction "protein_name")
          (jsOr (getF interaction "name") (.str "Unknown Protein")),
        score :=
          (match getF interaction "score" with
           | .num q => q
           | v =>
             match pf v with
             | some q => if q = 0 then (0.5 : Rat) else q
             | none => (0.5 : Rat)),
        evidence := jsOr (getF interaction "evidence")
          (jsOr (getF interaction "source") (.str "Not specified")),
        is_generated := truthy (getF interaction "is_generated") }

/-- The validation `.map` over the processed list (line 2602), indexed so
each element sees its own random suffix; the first thrown TypeError aborts
the whole map, as in JavaScript. -/
def validateAll (pf : JValue → Option Rat) (rand : Nat → String) :
    Nat → List JValue → Except Unit (List Interaction)
  | _, [] => .ok []
  | i, x :: xs =>
    match validateOne pf (rand i) x with
    | .error e => .error e
    | .ok r =>
      match validateAll pf rand (i + 1) xs with
      | .error e => .error e
      | .ok rs => .ok (r :: rs)

/-- The state writes performed by one run of handleInteractionsResponse:
the validated interactions list, and the knowledge-graph payload when the
response carried one (line 2620); the active tab is always switched to 1
afterwards. -/
structure InteractionsOutcome where
  interactionsData : List Interaction
  knowledgeGraphUpdate : Option JValue

/-- The normalizer handleInteractionsResponse (lines 2488-2658).  The
`fetched` argument is the result of the awaited
apiService.getProteinInteractions call, error meaning the fetch rejected.
Every TypeError raised inside the try block (fallback selection on a
non-string protein id, validation of a null element) reaches the catch
block, which installs interactionsCatchData.  The function is total: no
exception escapes, mirroring the source's outer try/catch. -/
def handleInteractionsResponse (pf : JValue → Option Rat)
    (parse : String → Option JValue) (rand : Nat → String)
    (proteinId : JValue) (fetched : Except Unit JValue) : InteractionsOutcome :=
  match fetched with
  | .error _ => ⟨interactionsCatchData, none⟩
  | .ok response =>
    let processed := extractInteractions parse response
    let withFallback : Except Unit (List JValue) :=
      if processed.length = 0 then
        match isTP53 proteinId with
        | .ok true => .ok tp53FallbackRaw
        | .ok false => .ok genericFallbackRaw
        | .error e => .error e
      else .ok processed
    match withFallback with
    | .error _ => ⟨interactionsCatchData, none⟩
    | .ok list =>
      match validateAll pf rand 0 list with
      | .error _ => ⟨interactionsCatchData, none⟩
      | .ok validated =>
        ⟨validated,
         if truthy response && truthy (getF response "knowledge_graph")
         then some (getF response "knowledge_graph") else none⟩

/-!
The structure pane ProteinStructureVisualizer (AminoVerseUI.js lines
187-304): the effect that computes the viewer state from the proteinId
and structureData props.
-/

/-- The viewer state set by ProteinStructureVisualizer's effect. -/
structure ViewerState where
  loading : Bool
  error : Option String
  viewerUrl : Option String
deriving DecidableEq

/-- AlphaFold entry URL for a cleaned id. -/
def alphafoldUrl (c : String) : String := "https://alphafold.ebi.ac.uk/entry/" ++ c

/-- RCSB 3D-view URL for a PDB id. -/
def rcsbUrl (p : String) : String := "https://www.rcsb.org/3d-view/" ++ p ++ "/"

/-- The catch block of the effect (lines 286-303): retry
proteinId.split('-')[0].split('.')[0]; if that throws as well, surface an
error state.  The TypeError text is environment-specific; a fixed message
stands in for it. -/
def structureCatch (proteinId : JValue) : ViewerState :=
  match splitCleanId proteinId with
  | .ok c => ⟨false, none, some (alphafoldUrl c)⟩
  | .error _ => ⟨false, some "Error processing structure: split is not a function", none⟩

/-- The effect body of ProteinStructureVisualizer (lines 197-304).  Cases
in source order: no protein id; no structure data yet; backend-provided
viewer_url; pdb_id; alphafold_id/uniprot_id (whose .split can raise a
TypeError that lands in the catch block); the proteinId-based AlphaFold
fallback (case 4, whose guard is always true at that point because the
top guard already required a truthy proteinId); the
status === 'unavailable' case; and the default error case - the last two
are kept for faithfulness although the case-4 guard makes them
unreachable. -/
def computeViewerState (proteinId : JValue) (structureData : JValue) : ViewerState :=
  if !truthy proteinId then ⟨false, none, none⟩
  else if !truthy structureData then ⟨true, none, none⟩
  else if truthy (getF structureData "viewer_url") then
    ⟨false, none, some (jsStringOf (getF structureData "viewer_url"))⟩
  else if truthy (getF structureData "pdb_id") then
    ⟨false, none, some (rcsbUrl (jsStringOf (getF structureData "pdb_id")))⟩
  else if truthy (getF structureData "alphafold_id") || truthy (getF structureData "uniprot_id") then
    match splitCleanId (jsOr (getF structureData "alphafold_id") (getF structureData "uniprot_id")) with
    | .ok c => ⟨false, none, some (alphafoldUrl c)⟩
    | .error _ => structureCatch proteinId
  else if truthy proteinId then
    match splitCleanId proteinId with
    | .ok c => ⟨false, none, some (alphafoldUrl c)⟩
    | .error _ => structureCatch proteinId
  else if jsEqStr (getF structureData "status") "unavailable" then
    ⟨false,
     some (jsStringOf (jsOr (getF structureData "message")
       (.str "No structure data available for this protein"))), none⟩
  else
    ⟨false, some "Could not determine how to display this protein structure", none⟩

/-!
The application state of AminoVerseUI (lines 2284-2302) and the chat
orchestrator handleSearch (lines 2314-2459), the form handler handleSubmit
(lines 2661-2667) and the tab buttons (lines 2774-2794).
-/

/-- Chat message roles. -/
inductive MsgType where
  | user
  | system
deriving DecidableEq

/-- A chat message; content is a string for every message the studied
code appends, but is kept as JValue since the response message content is
the raw `response.message` payload when present. -/
structure ChatMessage where
  type : MsgType
  content : JValue

/-- The useState variables of AminoVerseUI (lines 2286-2302).  The
sessionId (an opaque uuid only forwarded to the backend, never branched
on) is omitted. -/
structure AppState where
  query : String
  messages : List ChatMessage
  activeProtein : JValue
  proteinData : JValue
  structureData : JValue
  interactionsData : JValue
  knowledgeGraphData : JValue
  isLoading : Bool
  followUpSuggestions : JValue
  activeTab : Nat
  isStatusPanelVisible : Bool

/-- The welcome message preloaded into the chat history (lines 2288-2291). -/
def welcomeMessage : ChatMessage :=
  ⟨.system, .str "Welcome to AminoVerse! I'm your protein research assistant. Try searching for a protein like 'TP53' to get started."⟩

/-- The initial state of AminoVerseUI (lines 2286-2302). -/
def initialAppState : AppState :=
  { query := "", messages := [welcomeMessage], activeProtein := .null,
    proteinData := .null, structureData := .null, interactionsData := .arr [],
    knowledgeGraphData := .null, isLoading := false,
    followUpSuggestions := .arr [], activeTab := 0,
    isStatusPanelVisible := false }

/-- The tab-button click handler (lines 2776-2794): setActiveTab on the
chosen index, which updates that one state variable. -/
def clickTab (i : Nat) (st : AppState) : AppState := { st with activeTab := i }

/-- Results of the asynchronous calls handleSearch can await, error
meaning the promise rejected.  knowledgeGraphFetch stands for the result
of the Promise.race of the knowledge-graph request against the 15-second
timeout (lines 2382-2387), so a timeout is an error here too. -/
structure ApiEnv where
  chatResult : Except Unit JValue
  structureFetch : Except Unit JValue
  interactionsFetch : Except Unit JValue
  knowledgeGraphFetch : Except Unit JValue

/-- The timeout, in milliseconds, raced against the knowledge-graph fetch
(line 2384). -/
def knowledgeGraphTimeoutMs : Nat := 15000

/-- The user's chat message (lines 2318-2321). -/
def userMessage (q : String) : ChatMessage := ⟨.user, .str q⟩

/-- The chat message appended by handleSearch's catch block
(lines 2442-2448). -/
def chatErrorMessage : ChatMessage :=
  ⟨.system, .str "Sorry, I encountered an error processing your request. Please try again later."⟩

/-- The default suggestions set by the catch block (lines 2451-2455). -/
def errorFollowUps : JValue :=
  .arr [.str "Try searching for TP53", .str "What is a protein?", .str "Show structures"]

/-- The default suggestions of the no-data branch (lines 2431-2435). -/
def defaultFollowUps : JValue :=
  .arr [.str "Tell me about TP53", .str "What is a protein?",
        .str "Show me the structure of BRCA1"]

/-- The protein-specific suggestions (lines 2420-2425). -/
def proteinFollowUps (id : JValue) : JValue :=
  .arr [.str ("How does " ++ jsStringOf id ++ " relate to cancer?"),
        .str ("What drugs target " ++ jsStringOf id ++ "?"),
        .str ("Show me the knowledge graph for " ++ jsStringOf id),
        .str ("Show interactions for " ++ jsStringOf id)]

/-- A validated record as it sits in the interactionsData state: the
plain object with the five validated fields. -/
def Interaction.toJValue (r : Interaction) : JValue :=
  .obj [("protein_id", r.protein_id), ("protein_name", r.protein_name),
        ("score", .num r.score), ("evidence", r.evidence),
        ("is_generated", .bool r.is_generated)]

/-- Validity test on the separately fetched knowledge graph
(lines 2390-2394). -/
def validKnowledgeGraph (r : JValue) : Bool :=
  truthy r && truthy (getF r "nodes") && isArray (getF r "nodes") &&
    truthy (getF r "edges") && isArray (getF r "edges")

/-- Applying an InteractionsOutcome to the app state, in source order:
setInteractionsData, the optional setKnowledgeGraphData, setActiveTab(1)
(lines 2617-2626 and, for the catch path, 2655-2656). -/
def applyInteractionsOutcome (o : InteractionsOutcome) (st : AppState) : AppState :=
  let st1 := { st with interactionsData := .arr (o.interactionsData.map Interaction.toJValue) }
  let st2 := match o.knowledgeGraphUpdate with
    | some kg => { st1 with knowledgeGraphData := kg }
    | none => st1
  { st2 with activeTab := 1 }

/-- The structure block of handleSearch (lines 2344-2357). -/
def structureStep (env : ApiEnv) (data : JValue) (st : AppState) : AppState :=
  if truthy (getF data "structure") then
    { st with structureData := getF data "structure" }
  else
    match env.structureFetch with
    | .ok s => { st with structureData := s }
    | .error _ => { st with structureData := .null }

/-- The interactions block of handleSearch (lines 2360-2370). -/
def interactionsStep (env : ApiEnv) (pf : JValue → Option Rat)
    (parse : String → Option JValue) (rand : Nat → String)
    (response data : JValue) (st : AppState) : AppState :=
  if truthy (getF response "visualization_data") &&
      jsEqStr (getF response "visualization_type") "interactions" then
    { st with interactionsData := getF response "visualization_data", activeTab := 1 }
  else if truthy (getF data "interactions") && jsLengthGTZero (getF data "interactions") then
    { st with interactionsData := getF data "interactions" }
  else
    applyInteractionsOutcome
      (handleInteractionsResponse pf parse rand (getF data "id") env.interactionsFetch) st

/-- The knowledge-graph block of handleSearch (lines 2373-2408): inline
visualization data wins; otherwise the fetch raced against the timeout is
consulted, any rejection or invalid shape setting the state to null. -/
def knowledgeGraphStep (env : ApiEnv) (response : JValue) (st : AppState) : AppState :=
  if truthy (getF response "visualization_data") &&
      jsEqStr (getF response "visualization_type") "knowledge_graph" then
    { st with knowledgeGraphData := getF response "visualization_data", activeTab := 2 }
  else
    match env.knowledgeGraphFetch with
    | .ok kg =>
      if validKnowledgeGraph kg then { st with knowledgeGraphData := kg }
      else { st with knowledgeGraphData := .null }
    | .error _ => { st with knowledgeGraphData := .null }

/-- The query-content tab selection of handleSearch (lines 2411-2417). -/
def queryTabStep (searchQuery : String) (st : AppState) : AppState :=
  if strIncludes (jsToLower searchQuery) "interaction" ||
      strIncludes (jsToLower searchQuery) "network" then
    { st with activeTab := 1 }
  else if strIncludes (jsToLower searchQuery) "knowledge graph" ||
      strIncludes (jsToLower searchQuery) "graph" then
    { st with activeTab := 2 }
  else st

/-- The catch block of handleSearch (lines 2438-2455). -/
def handleSearchCatch (st : AppState) : AppState :=
  { st with messages := st.messages ++ [chatErrorMessage],
            followUpSuggestions := errorFollowUps }

/-- The chat orchestrator handleSearch (lines 2314-2459).  The only
expression inside the try block that can throw after the awaited chat call
is `response.message` on a null response; everything after it is guarded
or absorbed by inner try/catch blocks, so the catch path is exactly: chat
rejection or null chat payload.  The finally block clears isLoading on
every path. -/
def handleSearch (env : ApiEnv) (pf : JValue → Option Rat)
    (parse : String → Option JValue) (rand : Nat → String)
    (searchQuery : String) (st0 : AppState) : AppState :=
  let st1 := { st0 with isLoading := true,
                        messages := st0.messages ++ [userMessage searchQuery] }
  let result :=
    match env.chatResult with
    | .error _ => handleSearchCatch st1
    | .ok response =>
      match response with
      | .null => handleSearchCatch st1
      | _ =>
        let content := jsOr (getF response "message")
          (.str "I couldn't find specific information about your query.")
        let st2 := { st1 with messages := st1.messages ++ [ChatMessage.mk .system content] }
        let data := getF response "data"
        if truthy data && truthy (getF data "id") then
          let id := getF data "id"
          let st3 := { st2 with activeProtein := id, proteinData := data }
          let st4 := structureStep env data st3
          let st5 := interactionsStep env pf parse rand response data st4
          let st6 := knowledgeGraphStep env response st5
          let st7 := queryTabStep searchQuery st6
          { st7 with followUpSuggestions := proteinFollowUps id }
        else if truthy (getF response "follow_up_suggestions") &&
            jsLengthGTZero (getF response "follow_up_suggestions") then
          { st2 with followUpSuggestions := getF response "follow_up_suggestions" }
        else
          { st2 with followUpSuggestions := defaultFollowUps }
  { result with isLoading := false }

/-- The form submit handler handleSubmit (lines 2661-2667): on a
non-blank trimmed query, dispatch handleSearch with the original query
(returned as the second component, modelling the network-triggering call)
and clear the input; otherwise do nothing. -/
def handleSubmit (st : AppState) : AppState × Option String :=
  if jsTrim st.query ≠ "" then ({ st with query := "" }, some st.query)
  else (st, none)

/-!
Concrete instantiations of the library-primitive parameters, used by the
closed witness and counterexample statements: a JSON.parse that fails, a
parseFloat that yields NaN, and a Math.random suffix stream that is
empty.  None of them is consulted on the concrete inputs below unless
stated. -/

/-- parseFloat instance returning NaN on everything. -/
def pfNone : JValue → Option Rat := fun _ => none

/-- JSON.parse instance failing on everything. -/
def parseNone : String → Option JValue := fun _ => none

/-- Math.random suffix stream producing empty suffixes. -/
def randEmpty : Nat → String := fun _ => ""

/-!
Helper lemmas.
-/

/-- jsOr keeps a truthy left operand. -/
theorem jsOr_of_truthy {a : JValue} (b : JValue) (h : truthy a = true) :
    jsOr a b = a := by
  simp [jsOr, h]

/-- jsOr falls through to the right operand when the left is falsy. -/
theorem jsOr_of_falsy {a : JValue} (b : JValue) (h : truthy a = false) :
    jsOr a b = b := by
  simp [jsOr, h]

/-- The result of a jsOr chain is truthy whenever its final default is. -/
theorem truthy_jsOr {a b : JValue} (h : truthy b = true) :
    truthy (jsOr a b) = true := by
  by_cases ha : truthy a = true
  · rw [jsOr_of_truthy b ha]; exact ha
  · rw [jsOr_of_falsy b (Bool.eq_false_iff.mpr ha)]; exact h

/-- A truthy string value is a non-empty string. -/
theorem truthy_str_ne {s : String} (h : truthy (JValue.str s) = true) : s ≠ "" := by
  simpa [truthy] using h

/-- The synthesized unknown-id is never the empty string. -/
theorem unknown_id_ne (x : String) : ("unknown-" ++ x) ≠ "" := by
  intro h
  have h2 : ("unknown-" ++ x).data = "".data := congrArg String.data h
  rw [String.data_append] at h2
  exact absurd (List.append_eq_nil.mp h2).1 (by decide)

/-- Validation preserves the length of the processed list. -/
theorem validateAll_length (pf : JValue → Option Rat) (rand : Nat → String) :
    ∀ (i : Nat) (xs : List JValue) (ys : List Interaction),
      validateAll pf rand i xs = .ok ys → ys.length = xs.length := by
  intro i xs
  induction xs generalizing i with
  | nil =>
    intro ys h
    simp only [validateAll] at h
    cases h
    rfl
  | cons x rest ih =>
    intro ys h
    simp only [validateAll] at h
    cases hv : validateOne pf (rand i) x with
    | error e => rw [hv] at h; cases h
    | ok r =>
      rw [hv] at h
      cases hrest : validateAll pf rand (i + 1) rest with
      | error e => rw [hrest] at h; cases h
      | ok rs =>
        rw [hrest] at h
        cases h
        simpa using ih (i + 1) rs hrest

/-- Every validated record has truthy protein_id, protein_name and
evidence: each is a logical-or chain ending in a non-empty string
default. -/
theorem validateOne_fields {pf : JValue → Option Rat} {s : String} {x : JValue}
    {r : Interaction} (h : validateOne pf s x = .ok r) :
    truthy r.protein_id = true ∧ truthy r.protein_name = true ∧
      truthy r.evidence = true := by
  cases x <;> simp only [validateOne] at h
  case null => exact Except.noConfusion h
  all_goals
    cases h
    dsimp only
    refine ⟨truthy_jsOr (truthy_jsOr ?_), truthy_jsOr (truthy_jsOr ?_),
            truthy_jsOr (truthy_jsOr ?_)⟩
    · simp only [truthy, ne_eq, decide_eq_true_eq]
      exact unknown_id_ne _
    · decide
    · decide

/-- Every record of a successful validation comes from validateOne on
some element of the processed list. -/
theorem validateAll_mem (pf : JValue → Option Rat) (rand : Nat → String) :
    ∀ (i : Nat) (xs : List JValue) (ys : List Interaction),
      validateAll pf rand i xs = .ok ys →
      ∀ r ∈ ys, ∃ (j : Nat) (x : JValue), x ∈ xs ∧ validateOne pf (rand j) x = .ok r := by
  intro i xs
  induction xs generalizing i with
  | nil =>
    intro ys h
    simp only [validateAll] at h
    cases h
    intro r hr
    exact absurd hr (List.not_mem_nil r)
  | cons x rest ih =>
    intro ys h
    simp only [validateAll] at h
    cases hv : validateOne pf (rand i) x with
    | error e => rw [hv] at h; cases h
    | ok r0 =>
      rw [hv] at h
      cases hrest : validateAll pf rand (i + 1) rest with
      | error e => rw [hrest] at h; cases h
      | ok rs =>
        rw [hrest] at h
        cases h
        intro r hr
        rcases List.mem_cons.mp hr with rfl | hr
        · exact ⟨i, x, List.mem_cons_self _ _, hv⟩
        · rcases ih (i + 1) rs hrest r hr with ⟨j, x', hx', hval⟩
          exact ⟨j, x', List.mem_cons_of_mem _ hx', hval⟩

/-- The catch-block fallback records also have truthy protein_id,
protein_name and evidence. -/
theorem catchData_fields :
    ∀ r ∈ interactionsCatchData, truthy r.protein_id = true ∧
      truthy r.protein_name = true ∧ truthy r.evidence = true := by
  intro r hr
  simp only [interactionsCatchData, List.mem_cons, List.not_mem_nil, or_false] at hr
  rcases hr with h | h | h <;> subst h <;> exact ⟨by decide, by decide, by decide⟩

/-- The normalizer never yields an empty interactions list: a non-empty
processed list keeps its length through validation, an empty one is
replaced by one of the two non-empty fallback sets, and every failure
path installs the non-empty catch-block set. -/
theorem handleInteractions_nonempty (pf : JValue → Option Rat)
    (parse : String → Option JValue) (rand : Nat → String) (pid : JValue)
    (fetched : Except Unit JValue) :
    (handleInteractionsResponse pf parse rand pid fetched).interactionsData ≠ [] := by
  cases fetched with
  | error e => simp [handleInteractionsResponse, interactionsCatchData]
  | ok response =>
    simp only [handleInteractionsResponse]
    split
    · simp [interactionsCatchData]
    · next list hlist =>
      split
      · simp [interactionsCatchData]
      · next validated hval =>
        have hlen := validateAll_length pf rand 0 list validated hval
        have : list.length ≠ 0 := by
          by_cases hp : (extractInteractions parse response).length = 0
          · rw [if_pos hp] at hlist
            cases hiso : isTP53 pid with
            | error e => rw [hiso] at hlist; cases hlist
            | ok b =>
              rw [hiso] at hlist
              cases b
              · cases hlist; decide
              · cases hlist; decide
          · rw [if_neg hp] at hlist
            cases hlist
            exact hp
        intro hnil
        have hv2 : validated = [] := hnil
        rw [hv2] at hlen
        exact this hlen.symm

/-- The reduce seed is never larger than the reduce result. -/
theorem foldl_pick_acc_le (l : List JValue) :
    ∀ acc : JValue, arrLen acc ≤ arrLen (l.foldl pickLargerArray acc) := by
  induction l with
  | nil => intro acc; exact le_refl _
  | cons x xs ih =>
    intro acc
    rw [List.foldl_cons]
    refine le_trans ?_ (ih (pickLargerArray acc x))
    unfold pickLargerArray
    split <;> omega

/-- No list element is larger than the reduce result. -/
theorem foldl_pick_mem_le (l : List JValue) :
    ∀ acc : JValue, ∀ x ∈ l, arrLen x ≤ arrLen (l.foldl pickLargerArray acc) := by
  induction l with
  | nil => intro acc x hx; exact absurd hx (List.not_mem_nil x)
  | cons y ys ih =>
    intro acc x hx
    rcases List.mem_cons.mp hx with rfl | hx
    · rw [List.foldl_cons]
      refine le_trans ?_ (foldl_pick_acc_le ys (pickLargerArray acc x))
      unfold pickLargerArray
      split <;> omega
    · rw [List.foldl_cons]
      exact ih (pickLargerArray acc y) x hx

/-- The reduce result is the seed or one of the list elements. -/
theorem foldl_pick_mem_or (l : List JValue) :
    ∀ acc : JValue, l.foldl pickLargerArray acc = acc ∨ l.foldl pickLargerArray acc ∈ l := by
  induction l with
  | nil => intro acc; exact Or.inl rfl
  | cons y ys ih =>
    intro acc
    rw [List.foldl_cons]
    rcases ih (pickLargerArray acc y) with h | h
    · rw [h]
      unfold pickLargerArray
      split
      · exact Or.inr (List.mem_cons_self _ _)
      · exact Or.inl rfl
    · exact Or.inr (List.mem_cons_of_mem _ h)

/-- The largest-array-field heuristic always yields an array value. -/
theorem largestArrayField_isArray (fs : List (String × JValue)) :
    isArray (largestArrayField fs) = true := by
  unfold largestArrayField
  rcases foldl_pick_mem_or ((fs.map Prod.snd).filter isArray) (.arr []) with h | h
  · rw [h]; rfl
  · exact (List.mem_filter.mp h).2

/-- A string whose characters are all white space trims to the empty
string. -/
theorem jsTrim_of_whitespace {s : String}
    (h : ∀ c ∈ s.data, jsWhitespace c = true) : jsTrim s = "" := by
  unfold jsTrim
  rw [List.dropWhile_eq_nil_iff.mpr h]
  rfl

/-- The TP53 fallback records after validation: the literal fields pass
straight through (ids and names are truthy, scores are numbers, so
neither parseFloat nor the random suffix is consulted). -/
def tp53FallbackValidated : List Interaction :=
  [ ⟨.str "Q00987", .str "MDM2 (E3 ubiquitin-protein ligase)", 0.999,
     .str "experimental, text mining, database", false⟩,
    ⟨.str "Q13625", .str "ASPP2 (TP53BP2)", 0.924,
     .str "experimental, text mining", false⟩,
    ⟨.str "Q00653", .str "NFKB2 (Nuclear factor NF-kappa-B)", 0.876,
     .str "experimental, text mining", false⟩,
    ⟨.str "P38936", .str "CDKN1A (p21)", 0.912,
     .str "experimental, text mining", false⟩ ]

/-- The generic fallback records after validation. -/
def genericFallbackValidated : List Interaction :=
  [ ⟨.str "INTERACT_1", .str "Interacting Protein 1", 0.85,
     .str "computational prediction", true⟩,
    ⟨.str "INTERACT_2", .str "Interacting Protein 2", 0.75,
     .str "text mining", true⟩,
    ⟨.str "INTERACT_3", .str "Interacting Protein 3", 0.65,
     .str "experimental", true⟩ ]

/-- Validating the TP53 fallback set succeeds and is independent of the
parseFloat and Math.random parameters. -/
theorem validateAll_tp53 (pf : JValue → Option Rat) (rand : Nat → String) :
    validateAll pf rand 0 tp53FallbackRaw = .ok tp53FallbackValidated := rfl

/-- Validating the generic fallback set succeeds, independently of the
parameters. -/
theorem validateAll_generic (pf : JValue → Option Rat) (rand : Nat → String) :
    validateAll pf rand 0 genericFallbackRaw = .ok genericFallbackValidated := rfl

/-- String.prototype.startsWith. -/
def strStartsWith (s pat : String) : Bool := pat.data.isPrefixOf s.data

/-!
Claim theorems.
-/

/-- C5: for every input string consisting only of white space (or empty),
submitting the chat form does not dispatch a search (no network call) and
leaves the message history, the loading flag and all visualization state
unchanged - in fact the whole state is unchanged. -/
theorem claim_C5_blank_submit_is_noop (st : AppState)
    (h : ∀ c ∈ st.query.data, jsWhitespace c = true) :
    handleSubmit st = (st, none) ∧
    (handleSubmit st).1.messages = st.messages ∧
    (handleSubmit st).1.isLoading = st.isLoading ∧
    (handleSubmit st).1.proteinData = st.proteinData ∧
    (handleSubmit st).1.structureData = st.structureData ∧
    (handleSubmit st).1.interactionsData = st.interactionsData ∧
    (handleSubmit st).1.knowledgeGraphData = st.knowledgeGraphData ∧
    (handleSubmit st).2 = none := by
  have ht : jsTrim st.query = "" := jsTrim_of_whitespace h
  have he : handleSubmit st = (st, none) := by simp [handleSubmit, ht]
  rw [he]
  exact ⟨rfl, rfl, rfl, rfl, rfl, rfl, rfl, rfl⟩

/-- Witness for C5 at the concrete whitespace query consisting of two
spaces, a tab and a space. -/
theorem claim_C5_witness :
    (∀ c ∈ ("  \t ").data, jsWhitespace c = true) ∧
    handleSubmit { initialAppState with query := "  \t " } =
      ({ initialAppState with query := "  \t " }, none) := by
  refine ⟨by decide, ?_⟩
  exact (claim_C5_blank_submit_is_noop { initialAppState with query := "  \t " }
    (by decide)).1

/-- C6: clicking a visualization tab (index 0, 1 or 2) changes only the
activeTab state: proteinData, structureData, interactionsData and
knowledgeGraphData (and the rest of the state) are untouched, so the data
of the other tabs is not lost. -/
theorem claim_C6_tab_switch_preserves_data (st : AppState) (i : Nat)
    (h : i = 0 ∨ i = 1 ∨ i = 2) :
    (clickTab i st).activeTab = i ∧
    (clickTab i st).proteinData = st.proteinData ∧
    (clickTab i st).structureData = st.structureData ∧
    (clickTab i st).interactionsData = st.interactionsData ∧
    (clickTab i st).knowledgeGraphData = st.knowledgeGraphData ∧
    (clickTab i st).messages = st.messages ∧
    (clickTab i st).activeProtein = st.activeProtein ∧
    (clickTab i st).isLoading = st.isLoading ∧
    (clickTab i st).followUpSuggestions = st.followUpSuggestions ∧
    (clickTab i st).query = st.query :=
  ⟨rfl, rfl, rfl, rfl, rfl, rfl, rfl, rfl, rfl, rfl⟩

/-- Witness for C6: switching the initial state to tab 1. -/
theorem claim_C6_witness :
    ((1 : Nat) = 0 ∨ (1 : Nat) = 1 ∨ (1 : Nat) = 2) ∧
    (clickTab 1 initialAppState).activeTab = 1 ∧
    (clickTab 1 initialAppState).interactionsData = initialAppState.interactionsData := by
  have h := claim_C6_tab_switch_preserves_data initialAppState 1 (Or.inr (Or.inl rfl))
  exact ⟨Or.inr (Or.inl rfl), h.1, h.2.2.2.1⟩

/-- C7: whenever the chat API call rejects, handleSearch catches the
error, appends the system message starting with the text Sorry, I
encountered an error after the user's message (which remains), installs
the default error follow-up suggestions, clears the loading flag and
leaves the visualization state untouched; the function returns normally,
so no exception escapes. -/
theorem claim_C7_chat_error_caught (env : ApiEnv) (pf : JValue → Option Rat)
    (parse : String → Option JValue) (rand : Nat → String) (q : String)
    (st : AppState) (h : env.chatResult = .error ()) :
    (handleSearch env pf parse rand q st).messages =
      st.messages ++ [userMessage q, chatErrorMessage] ∧
    (handleSearch env pf parse rand q st).followUpSuggestions = errorFollowUps ∧
    (handleSearch env pf parse rand q st).isLoading = false ∧
    (handleSearch env pf parse rand q st).proteinData = st.proteinData ∧
    (handleSearch env pf parse rand q st).structureData = st.structureData ∧
    (handleSearch env pf parse rand q st).interactionsData = st.interactionsData ∧
    (handleSearch env pf parse rand q st).knowledgeGraphData = st.knowledgeGraphData ∧
    chatErrorMessage.type = .system ∧
    (∃ s : String, chatErrorMessage.content = .str s ∧
      strStartsWith s "Sorry, I encountered an error" = true) := by
  refine ⟨?_, ?_, ?_, ?_, ?_, ?_, ?_, rfl, ?_⟩
  · simp [handleSearch, h, handleSearchCatch, List.append_assoc]
  · simp [handleSearch, h, handleSearchCatch]
  · simp [handleSearch, h, handleSearchCatch]
  · simp [handleSearch, h, handleSearchCatch]
  · simp [handleSearch, h, handleSearchCatch]
  · simp [handleSearch, h, handleSearchCatch]
  · simp [handleSearch, h, handleSearchCatch]
  · exact ⟨_, rfl, by decide⟩

/-- Witness for C7: a rejected chat call on the initial state. -/
theorem claim_C7_witness :
    (ApiEnv.mk (.error ()) (.error ()) (.error ()) (.error ())).chatResult = .error () ∧
    (handleSearch (ApiEnv.mk (.error ()) (.error ()) (.error ()) (.error ()))
        pfNone parseNone randEmpty "TP53" initialAppState).messages =
      initialAppState.messages ++ [userMessage "TP53", chatErrorMessage] ∧
    (handleSearch (ApiEnv.mk (.error ()) (.error ()) (.error ()) (.error ()))
        pfNone parseNone randEmpty "TP53" initialAppState).isLoading = false := by
  have h := claim_C7_chat_error_caught
    (ApiEnv.mk (.error ()) (.error ()) (.error ()) (.error ()))
    pfNone parseNone randEmpty "TP53" initialAppState rfl
  exact ⟨rfl, h.1, h.2.2.1⟩

/-- The concrete structure payload refuting C3 as stated: it carries both
a backend viewer_url and a pdb_id. -/
def viewerPriorityCounterexamplePayload : JValue :=
  .obj [("viewer_url", .str "https://example.org/custom-viewer"),
        ("pdb_id", .str "1TUP")]

/-- Counterexample to C3 as stated: for the known protein id P04637 and a
structure payload containing a PDB identifier, the structure pane does
not derive the viewer URL from the PDB identifier - the backend-provided
viewer_url wins, so PDB is not tried first. -/
theorem claim_C3_counterexample :
    truthy (getF viewerPriorityCounterexamplePayload "pdb_id") = true ∧
    computeViewerState (.str "P04637") viewerPriorityCounterexamplePayload =
      ⟨false, none, some "https://example.org/custom-viewer"⟩ ∧
    computeViewerState (.str "P04637") viewerPriorityCounterexamplePayload ≠
      ⟨false, none, some (rcsbUrl "1TUP")⟩ := by
  refine ⟨rfl, rfl, ?_⟩
  decide

/-- C3 as amended: for a known (non-empty string) protein id and a truthy
structure payload, the viewer URL is chosen by trying the backend-provided
viewer_url first, then the PDB identifier, then the predicted-model
(AlphaFold/UniProt) identifier, then the generic AlphaFold fallback
derived from the protein id - in exactly that priority order. -/
theorem claim_C3_url_priority_order (p : String) (hp : p ≠ "") (sd : JValue)
    (hsd : truthy sd = true) :
    (truthy (getF sd "viewer_url") = true →
      computeViewerState (.str p) sd =
        ⟨false, none, some (jsStringOf (getF sd "viewer_url"))⟩) ∧
    (truthy (getF sd "viewer_url") = false →
      truthy (getF sd "pdb_id") = true →
      computeViewerState (.str p) sd =
        ⟨false, none, some (rcsbUrl (jsStringOf (getF sd "pdb_id")))⟩) ∧
    (∀ u : String, truthy (getF sd "viewer_url") = false →
      truthy (getF sd "pdb_id") = false →
      (truthy (getF sd "alphafold_id") || truthy (getF sd "uniprot_id")) = true →
      jsOr (getF sd "alphafold_id") (getF sd "uniprot_id") = .str u →
      computeViewerState (.str p) sd =
        ⟨false, none, some (alphafoldUrl (cleanId u))⟩) ∧
    (truthy (getF sd "viewer_url") = false →
      truthy (getF sd "pdb_id") = false →
      (truthy (getF sd "alphafold_id") || truthy (getF sd "uniprot_id")) = false →
      computeViewerState (.str p) sd =
        ⟨false, none, some (alphafoldUrl (cleanId p))⟩) := by
  have hps : truthy (JValue.str p) = true := by
    simp [truthy, hp]
  refine ⟨?_, ?_, ?_, ?_⟩
  · intro h1
    simp [computeViewerState, hps, hsd, h1]
  · intro h1 h2
    simp [computeViewerState, hps, hsd, h1, h2]
  · intro u h1 h2 h3 h4
    simp [computeViewerState, hps, hsd, h1, h2, h3, h4, splitCleanId]
  · intro h1 h2 h3
    simp only [Bool.or_eq_false_iff] at h3
    simp [computeViewerState, hps, hsd, h1, h2, h3.1, h3.2, splitCleanId]

/-- Witness for the amended C3: a payload with only a pdb_id takes the
PDB branch. -/
theorem claim_C3_witness :
    ("P04637" ≠ "") ∧
    truthy (JValue.obj [("pdb_id", .str "1TUP")]) = true ∧
    computeViewerState (.str "P04637") (.obj [("pdb_id", .str "1TUP")]) =
      ⟨false, none,
       some (rcsbUrl (jsStringOf (getF (.obj [("pdb_id", .str "1TUP")]) "pdb_id")))⟩ := by
  refine ⟨by decide, rfl, ?_⟩
  exact (claim_C3_url_priority_order "P04637" (by decide)
    (.obj [("pdb_id", .str "1TUP")]) rfl).2.1 rfl rfl

/-- C9: whenever the protein id is a known (non-empty string) id and the
structure payload is a non-null object whose viewer_url, pdb_id,
alphafold_id and uniprot_id are all absent or falsy, the effect always
lands in the proteinId-based AlphaFold fallback (case 4), whose guard is
implied by the effect's top guard - so the status === 'unavailable'
branch and the final could-not-determine error branch are unreachable and
no error state is produced, whatever the rest of the payload (including a
status field reporting unavailability) says. -/
theorem claim_C9_unavailable_branch_dead (p : String) (hp : p ≠ "")
    (fs : List (String × JValue))
    (h1 : truthy (getF (.obj fs) "viewer_url") = false)
    (h2 : truthy (getF (.obj fs) "pdb_id") = false)
    (h3 : truthy (getF (.obj fs) "alphafold_id") = false)
    (h4 : truthy (getF (.obj fs) "uniprot_id") = false) :
    computeViewerState (.str p) (.obj fs) =
      ⟨false, none, some (alphafoldUrl (cleanId p))⟩ := by
  have hps : truthy (JValue.str p) = true := by
    simp [truthy, hp]
  have hobj : truthy (JValue.obj fs) = true := rfl
  simp [computeViewerState, hps, hobj, h1, h2, h3, h4, splitCleanId]

/-- Witness for C9: a payload that even reports status unavailable still
yields the generic AlphaFold fallback URL with no error state. -/
theorem claim_C9_witness :
    ("P04637" ≠ "") ∧
    truthy (getF (.obj [("status", .str "unavailable"),
      ("message", .str "No structure found")]) "viewer_url") = false ∧
    computeViewerState (.str "P04637")
      (.obj [("status", .str "unavailable"), ("message", .str "No structure found")]) =
      ⟨false, none, some (alphafoldUrl (cleanId "P04637"))⟩ := by
  refine ⟨by decide, rfl, ?_⟩
  exact claim_C9_unavailable_branch_dead "P04637" (by decide)
    [("status", .str "unavailable"), ("message", .str "No structure found")]
    rfl rfl rfl rfl

/-- The four response shapes enumerated by the spec for the interactions
payload: a bare array, an object with an interactions array field, a
JSON-encoded string, and an object whose fields are all array-valued and
unrelated (none of them named interactions). -/
def specResponseShape (response : JValue) : Prop :=
  (∃ xs, response = .arr xs) ∨
  (∃ fs xs, response = .obj fs ∧ objGet fs "interactions" = .arr xs) ∨
  (∃ s, response = .str s) ∨
  (∃ fs, response = .obj fs ∧ ∀ p ∈ fs, isArray p.2 = true ∧ p.1 ≠ "interactions")

/-- C1: for every response of one of the spec's shapes, the normalizer
returns normally (it is a total function, mirroring the outer try/catch
that absorbs every exception) and the interactions list it installs is
non-empty - the non-empty-canonical-list disjunct of the claim; the
explicit no-data state is never needed. -/
theorem claim_C1_normalizer_total_nonempty (pf : JValue → Option Rat)
    (parse : String → Option JValue) (rand : Nat → String) (pid : JValue)
    (response : JValue) (h : specResponseShape response) :
    (handleInteractionsResponse pf parse rand pid (.ok response)).interactionsData ≠ [] :=
  handleInteractions_nonempty pf parse rand pid (.ok response)

/-- Witness for C1: a bare-array response with one record. -/
theorem claim_C1_witness :
    specResponseShape (.arr [.obj [("protein_id", .str "A")]]) ∧
    (handleInteractionsResponse pfNone parseNone randEmpty (.str "BRCA1")
      (.ok (.arr [.obj [("protein_id", .str "A")]]))).interactionsData ≠ [] := by
  refine ⟨Or.inl ⟨_, rfl⟩, ?_⟩
  exact claim_C1_normalizer_total_nonempty pfNone parseNone randEmpty (.str "BRCA1")
    (.arr [.obj [("protein_id", .str "A")]]) (Or.inl ⟨_, rfl⟩)

/-- Counterexample to C2 as stated: the protein id tp53 is neither the
string P04637 nor the string TP53, yet the normalizer synthesizes the
hard-coded TP53-specific four-record set, not the generic three-record
set (the source compares the uppercased id). -/
theorem claim_C2_counterexample :
    jsEqStr (.str "tp53") "P04637" = false ∧
    jsEqStr (.str "tp53") "TP53" = false ∧
    (handleInteractionsResponse pfNone parseNone randEmpty (.str "tp53")
      (.ok (.obj []))).interactionsData = tp53FallbackValidated ∧
    tp53FallbackValidated.length ≠ genericFallbackValidated.length := by
  refine ⟨rfl, rfl, rfl, ?_⟩
  decide

/-- C2 as amended: for every string protein id, when the shape-sniffing
stage yields an empty list the normalizer synthesizes placeholder
records - the hard-coded TP53-specific set when the id is P04637 or
equals TP53 after uppercasing, the generic three-record set otherwise -
and the installed interactions list is never empty. -/
theorem claim_C2_placeholder_synthesis (pf : JValue → Option Rat)
    (parse : String → Option JValue) (rand : Nat → String) (p : String)
    (fetched : Except Unit JValue) :
    (∀ response, fetched = .ok response →
      extractInteractions parse response = [] →
      (handleInteractionsResponse pf parse rand (.str p) fetched).interactionsData =
        (if p = "P04637" ∨ jsToUpper p = "TP53" then tp53FallbackValidated
         else genericFallbackValidated)) ∧
    (handleInteractionsResponse pf parse rand (.str p) fetched).interactionsData ≠ [] := by
  constructor
  · intro response hok hempty
    subst hok
    by_cases hp1 : p = "P04637"
    · simp [handleInteractionsResponse, hempty, isTP53, jsEqStr, hp1,
        validateAll_tp53]
    · by_cases hp2 : jsToUpper p = "TP53"
      · simp [handleInteractionsResponse, hempty, isTP53, jsEqStr, hp1, hp2,
          validateAll_tp53]
      · simp [handleInteractionsResponse, hempty, isTP53, jsEqStr, hp1, hp2,
          validateAll_generic]
  · exact handleInteractions_nonempty pf parse rand (.str p) fetched

/-- Witness for the amended C2: an empty-object response synthesizes the
TP53 set for the accession P04637 and the generic set for BRCA1. -/
theorem claim_C2_witness :
    (handleInteractionsResponse pfNone parseNone randEmpty (.str "P04637")
      (.ok (.obj []))).interactionsData = tp53FallbackValidated ∧
    (handleInteractionsResponse pfNone parseNone randEmpty (.str "BRCA1")
      (.ok (.obj []))).interactionsData = genericFallbackValidated := by
  have h1 := (claim_C2_placeholder_synthesis pfNone parseNone randEmpty "P04637"
    (.ok (.obj []))).1 (.obj []) rfl rfl
  have h2 := (claim_C2_placeholder_synthesis pfNone parseNone randEmpty "BRCA1"
    (.ok (.obj []))).1 (.obj []) rfl rfl
  constructor
  · rw [h1, if_pos (Or.inl rfl)]
  · rw [h2, if_neg (by decide)]

/-- An array-classified value is an arr constructor. -/
theorem isArray_exists {v : JValue} (h : isArray v = true) : ∃ xs, v = .arr xs := by
  cases v <;> first
    | exact ⟨_, rfl⟩
    | simp [isArray] at h

/-- C4: for an object response without an interactions array field, the
normalizer uses the elements of an array-valued field of maximal length
(the result dominates every array-valued field in length, and when
non-empty it is itself one of the fields), and it leaves the list empty -
falling through to the placeholder path - exactly when the object has no
non-empty array-valued field. -/
theorem claim_C4_longest_array_heuristic (parse : String → Option JValue)
    (fs : List (String × JValue))
    (hni : isArray (objGet fs "interactions") = false) :
    (∀ v ∈ fs.map Prod.snd, ∀ ys, v = .arr ys →
      ys.length ≤ (extractInteractions parse (.obj fs)).length) ∧
    (extractInteractions parse (.obj fs) ≠ [] →
      JValue.arr (extractInteractions parse (.obj fs)) ∈ fs.map Prod.snd) ∧
    (extractInteractions parse (.obj fs) = [] →
      ∀ v ∈ fs.map Prod.snd, ∀ ys, v = .arr ys → ys = []) := by
  obtain ⟨xs, hxs⟩ := isArray_exists (largestArrayField_isArray fs)
  have hext : extractInteractions parse (.obj fs) = xs := by
    simp only [extractInteractions]
    rcases ho : objGet fs "interactions" with _ | b | q | s | ys | gs <;>
      simp only [ho] at hni ⊢
    case arr => exact absurd hni (by simp [isArray])
    all_goals rw [hxs]
  have hmax : ∀ v ∈ fs.map Prod.snd, ∀ ys, v = .arr ys → ys.length ≤ xs.length := by
    intro v hv ys hys
    subst hys
    have hmem : JValue.arr ys ∈ (fs.map Prod.snd).filter isArray :=
      List.mem_filter.mpr ⟨hv, rfl⟩
    have hle := foldl_pick_mem_le ((fs.map Prod.snd).filter isArray) (.arr []) _ hmem
    have : arrLen (largestArrayField fs) = xs.length := by rw [hxs]; rfl
    rw [largestArrayField] at this
    rw [this] at hle
    exact hle
  refine ⟨?_, ?_, ?_⟩
  · intro v hv ys hys
    rw [hext]
    exact hmax v hv ys hys
  · intro hne
    rw [hext] at hne ⊢
    rcases foldl_pick_mem_or ((fs.map Prod.snd).filter isArray) (.arr []) with h | h
    · rw [largestArrayField] at hxs
      rw [h] at hxs
      cases hxs
      exact absurd rfl hne
    · rw [largestArrayField] at hxs
      rw [hxs] at h
      exact (List.mem_filter.mp h).1
  · intro hempty v hv ys hys
    rw [hext] at hempty
    subst hempty
    have := hmax v hv ys hys
    exact List.eq_nil_of_length_eq_zero (Nat.le_zero.mp this)

/-- Witness for C4: an object with two unrelated array fields; the longer
one is selected. -/
theorem claim_C4_witness :
    isArray (objGet [("a", JValue.arr [.num 1]),
      ("b", JValue.arr [.num 1, .num 2])] "interactions") = false ∧
    extractInteractions parseNone
      (.obj [("a", JValue.arr [.num 1]), ("b", JValue.arr [.num 1, .num 2])]) =
      [.num 1, .num 2] ∧
    JValue.arr (extractInteractions parseNone
      (.obj [("a", JValue.arr [.num 1]), ("b", JValue.arr [.num 1, .num 2])])) ∈
      ([("a", JValue.arr [.num 1]), ("b", JValue.arr [.num 1, .num 2])].map Prod.snd) := by
  refine ⟨rfl, rfl, ?_⟩
  refine (claim_C4_longest_array_heuristic parseNone
    [("a", JValue.arr [.num 1]), ("b", JValue.arr [.num 1, .num 2])] rfl).2.1 ?_
  intro hh
  have : ([JValue.num 1, JValue.num 2] : List JValue) = [] := hh
  exact List.noConfusion this

/-- Counterexample to C10 as stated: a source record whose protein_id is
the number 42 (truthy, so the defaulting chain keeps it) yields a
validated record whose protein_id is not a string at all. -/
theorem claim_C10_counterexample :
    (handleInteractionsResponse pfNone parseNone randEmpty (.str "X")
      (.ok (.obj [("interactions", .arr [.obj [("protein_id", .num 42)]])]))).interactionsData =
      [⟨.num 42, .str "Unknown Protein", 0.5, .str "Not specified", false⟩] ∧
    isStr (JValue.num 42) = false :=
  ⟨rfl, rfl⟩

/-- C10 as amended: every record in the validated interactions list has
truthy protein_id, protein_name and evidence values - in particular each
of these is a non-empty string whenever it is a string at all (the typing
of the embedding already forces score to be a finite number, defaulted to
0.5 when the source value is not a number and parseFloat fails or yields
0, and is_generated to be a boolean). -/
theorem claim_C10_validated_record_invariant (pf : JValue → Option Rat)
    (parse : String → Option JValue) (rand : Nat → String) (pid : JValue)
    (fetched : Except Unit JValue) :
    ∀ r ∈ (handleInteractionsResponse pf parse rand pid fetched).interactionsData,
      truthy r.protein_id = true ∧ truthy r.protein_name = true ∧
      truthy r.evidence = true ∧
      (∀ s, r.protein_id = .str s → s ≠ "") ∧
      (∀ s, r.protein_name = .str s → s ≠ "") ∧
      (∀ s, r.evidence = .str s → s ≠ "") := by
  intro r hr
  have main : truthy r.protein_id = true ∧ truthy r.protein_name = true ∧
      truthy r.evidence = true := by
    cases fetched with
    | error e => exact catchData_fields r hr
    | ok response =>
      simp only [handleInteractionsResponse] at hr
      split at hr
      · exact catchData_fields r hr
      · next list hlist =>
        split at hr
        · exact catchData_fields r hr
        · next validated hval =>
          have hr2 : r ∈ validated := hr
          rcases validateAll_mem pf rand 0 list validated hval r hr2 with ⟨j, x, hx, hvo⟩
          exact validateOne_fields hvo
  refine ⟨main.1, main.2.1, main.2.2, ?_, ?_, ?_⟩
  · intro s hs
    exact truthy_str_ne (hs ▸ main.1)
  · intro s hs
    exact truthy_str_ne (hs ▸ main.2.1)
  · intro s hs
    exact truthy_str_ne (hs ▸ main.2.2)

/-- Witness for the amended C10 at a concrete one-record response. -/
theorem claim_C10_witness :
    (⟨.str "A", .str "Unknown Protein", 1, .str "Not specified", false⟩ : Interaction) ∈
      (handleInteractionsResponse pfNone parseNone randEmpty (.str "X")
        (.ok (.arr [.obj [("protein_id", .str "A"), ("score", .num 1)]]))).interactionsData ∧
    truthy (JValue.str "A") = true := by
  have hm : (⟨.str "A", .str "Unknown Protein", 1, .str "Not specified", false⟩ : Interaction) ∈
      (handleInteractionsResponse pfNone parseNone randEmpty (.str "X")
        (.ok (.arr [.obj [("protein_id", .str "A"), ("score", .num 1)]]))).interactionsData :=
    List.mem_cons_self _ _
  have h := claim_C10_validated_record_invariant pfNone parseNone randEmpty (.str "X")
    (.ok (.arr [.obj [("protein_id", .str "A"), ("score", .num 1)]])) _ hm
  exact ⟨hm, h.1⟩

/-- The query-content tab selection touches only activeTab. -/
theorem queryTabStep_preserves (q : String) (st : AppState) :
    (queryTabStep q st).knowledgeGraphData = st.knowledgeGraphData ∧
    (queryTabStep q st).isLoading = st.isLoading ∧
    (queryTabStep q st).followUpSuggestions = st.followUpSuggestions := by
  unfold queryTabStep
  split
  · exact ⟨rfl, rfl, rfl⟩
  · split
    · exact ⟨rfl, rfl, rfl⟩
    · exact ⟨rfl, rfl, rfl⟩

/-- Whenever the chat response carries no inline knowledge-graph
visualization and the raced fetch either rejects (including by timeout)
or returns a payload without valid nodes and edges arrays, the
knowledge-graph block stores null. -/
theorem knowledgeGraphStep_null (env : ApiEnv) (response : JValue) (st : AppState)
    (hinline : (truthy (getF response "visualization_data") &&
      jsEqStr (getF response "visualization_type") "knowledge_graph") = false)
    (hfetch : ∀ kg, env.knowledgeGraphFetch = .ok kg → validKnowledgeGraph kg = false) :
    (knowledgeGraphStep env response st).knowledgeGraphData = .null := by
  unfold knowledgeGraphStep
  rw [hinline]
  simp only [Bool.false_eq_true, if_false]
  cases hk : env.knowledgeGraphFetch with
  | error e => rfl
  | ok kg => simp [hfetch kg hk]

/-- C8: when the chat response carries a protein id but no inline
knowledge-graph visualization data, the follow-up knowledge-graph fetch
is raced against the 15000 ms timeout; whenever the race rejects (fetch
error or timeout) or resolves to a payload without valid nodes and edges
arrays, handleSearch stores null in knowledgeGraphData and completes the
rest of the flow - the protein follow-up suggestions are still installed
and the loading flag is cleared - with no escaping exception. -/
theorem claim_C8_kg_race_rejection_yields_null (env : ApiEnv)
    (pf : JValue → Option Rat) (parse : String → Option JValue)
    (rand : Nat → String) (q : String) (st : AppState) (response : JValue)
    (hchat : env.chatResult = .ok response)
    (hdata : truthy (getF response "data") = true)
    (hid : truthy (getF (getF response "data") "id") = true)
    (hinline : (truthy (getF response "visualization_data") &&
      jsEqStr (getF response "visualization_type") "knowledge_graph") = false)
    (hfetch : ∀ kg, env.knowledgeGraphFetch = .ok kg → validKnowledgeGraph kg = false) :
    (handleSearch env pf parse rand q st).knowledgeGraphData = .null ∧
    (handleSearch env pf parse rand q st).isLoading = false ∧
    (handleSearch env pf parse rand q st).followUpSuggestions =
      proteinFollowUps (getF (getF response "data") "id") ∧
    knowledgeGraphTimeoutMs = 15000 := by
  cases response with
  | null => exact absurd hdata (by simp [getF, truthy])
  | bool b => exact absurd hdata (by simp [getF, truthy])
  | num q' => exact absurd hdata (by simp [getF, truthy])
  | str s => exact absurd hdata (by simp [getF, truthy])
  | arr xs => exact absurd hdata (by simp [getF, truthy])
  | obj fsr =>
    have hcond : (truthy (getF (JValue.obj fsr) "data") &&
        truthy (getF (getF (JValue.obj fsr) "data") "id")) = true := by
      rw [hdata, hid]
      rfl
    simp only [handleSearch, hchat, hcond, if_true]
    refine ⟨?_, ?_, ?_, ?_⟩
    · show (queryTabStep q (knowledgeGraphStep env (.obj fsr)
        (interactionsStep env pf parse rand (.obj fsr) (getF (.obj fsr) "data")
          (structureStep env (getF (.obj fsr) "data")
            { st with
              isLoading := true,
              messages := (st.messages ++ [userMessage q]) ++
                [ChatMessage.mk .system (jsOr (getF (.obj fsr) "message")
                  (.str "I couldn't find specific information about your query."))],
              activeProtein := getF (getF (.obj fsr) "data") "id",
              proteinData := getF (.obj fsr) "data" })))).knowledgeGraphData = .null
      rw [(queryTabStep_preserves q _).1]
      exact knowledgeGraphStep_null env _ _ hinline hfetch
    · trivial
    · trivial
    · trivial

/-- Witness for C8: a minimal protein response whose knowledge-graph race
times out. -/
theorem claim_C8_witness :
    (ApiEnv.mk (.ok (.obj [("message", .str "Found TP53"),
        ("data", .obj [("id", .str "P04637")])]))
      (.error ()) (.error ()) (.error ())).chatResult =
      .ok (.obj [("message", .str "Found TP53"), ("data", .obj [("id", .str "P04637")])]) ∧
    (handleSearch (ApiEnv.mk (.ok (.obj [("message", .str "Found TP53"),
        ("data", .obj [("id", .str "P04637")])]))
      (.error ()) (.error ()) (.error ()))
      pfNone parseNone randEmpty "tell me about TP53" initialAppState).knowledgeGraphData =
      .null := by
  refine ⟨rfl, ?_⟩
  exact (claim_C8_kg_race_rejection_yields_null
    (ApiEnv.mk (.ok (.obj [("message", .str "Found TP53"),
        ("data", .obj [("id", .str "P04637")])]))
      (.error ()) (.error ()) (.error ()))
    pfNone parseNone randEmpty "tell me about TP53" initialAppState
    (.obj [("message", .str "Found TP53"), ("data", .obj [("id", .str "P04637")])])
    rfl rfl rfl rfl (fun kg hkg => Except.noConfusion hkg)).1
